import Mathlib

/-!
Verification development for the workflowx core: event-to-session clustering,
focus-switch denoising, friction scoring, intent-similarity pattern detection,
weekly friction trends, ROI measurement and the daemon scheduling helper.

Conventions of the shallow embedding:
* Python `datetime` values are modelled as rational numbers of seconds on a
  naive timeline (seconds since 1970-01-01 00:00:00); `timedelta` subtraction
  `(a - b).total_seconds()` is plain subtraction of those rationals.
* Python floats are modelled as rationals; `round(x, n)` is modelled as
  round-half-to-even at `n` decimal digits.
* `hashlib.md5(...).hexdigest()` is library code outside the repository; the
  definitions take the hex-digest function as an explicit parameter
  `md5hex : String → String`.
* `datetime.now()` is injected as an explicit `now : ℚ` parameter.
-/

set_option maxHeartbeats 1000000
set_option maxRecDepth 8000

namespace Workflowx

/-- `models.EventSource`. -/
inductive EventSource
  | screenpipe
  | activitywatch
  | manual
  | custom
deriving DecidableEq, Repr

/-- `models.RawEvent`.  The `metadata : dict[str, Any]` field is omitted: it is
never read by any of the modelled code. -/
structure RawEvent where
  timestamp : ℚ
  source : EventSource
  app_name : String
  window_title : String
  url : String
  ocr_text : String
  duration_seconds : ℚ
deriving DecidableEq, Repr

/-- `models.FrictionLevel`. -/
inductive FrictionLevel
  | low
  | medium
  | high
  | critical
deriving DecidableEq, Repr

/-- `models.WorkflowSession`. -/
structure WorkflowSession where
  id : String
  start_time : ℚ
  end_time : ℚ
  events : List RawEvent
  inferred_intent : String
  confidence : ℚ
  apps_used : List String
  total_duration_minutes : ℚ
  context_switches : ℕ
  friction_level : FrictionLevel
  friction_details : String
  user_validated : Bool
  user_label : String
deriving DecidableEq, Repr

/-- `models.WorkflowPattern`. -/
structure WorkflowPattern where
  id : String
  intent : String
  occurrences : ℕ
  first_seen : ℚ
  last_seen : ℚ
  avg_duration_minutes : ℚ
  most_common_friction : FrictionLevel
  avg_context_switches : ℚ
  session_ids : List String
  trend : String
  total_time_invested_minutes : ℚ
  apps_involved : List String
deriving DecidableEq, Repr

/-- `models.FrictionTrend`. -/
structure FrictionTrend where
  week_label : String
  week_start : ℚ
  week_end : ℚ
  total_sessions : ℕ
  total_minutes : ℚ
  high_friction_minutes : ℚ
  high_friction_ratio : ℚ
  avg_switches_per_session : ℚ
  top_friction_intents : List String
deriving DecidableEq, Repr

/-- `models.ReplacementOutcome`. -/
structure ReplacementOutcome where
  id : String
  proposal_id : String
  intent : String
  adopted : Bool
  adopted_date : Option ℚ
  before_minutes_per_week : ℚ
  after_minutes_per_week : ℚ
  actual_savings_minutes : ℚ
  cumulative_savings_minutes : ℚ
  weeks_tracked : ℕ
  notes : String
  status : String
deriving DecidableEq, Repr

/-- Convenience constructor for test events (only the fields that the modelled
code reads are ever significant). -/
def mkEvent (t : ℚ) (app : String) (ocr : String) : RawEvent :=
  { timestamp := t, source := EventSource.custom, app_name := app,
    window_title := "", url := "", ocr_text := ocr, duration_seconds := 0 }

instance : Inhabited RawEvent := ⟨mkEvent 0 "" ""⟩

/-- Convenience constructor for test sessions. -/
def mkSession (sid : String) (start stop dur : ℚ) (intent : String)
    (fl : FrictionLevel) (sw : ℕ) : WorkflowSession :=
  { id := sid, start_time := start, end_time := stop, events := [],
    inferred_intent := intent, confidence := 0, apps_used := [],
    total_duration_minutes := dur, context_switches := sw,
    friction_level := fl, friction_details := "", user_validated := false,
    user_label := "" }

instance : Inhabited WorkflowSession :=
  ⟨mkSession "" 0 0 0 "" FrictionLevel.low 0⟩

instance : Inhabited WorkflowPattern :=
  ⟨{ id := "", intent := "", occurrences := 0, first_seen := 0, last_seen := 0,
     avg_duration_minutes := 0, most_common_friction := FrictionLevel.low,
     avg_context_switches := 0, session_ids := [], trend := "",
     total_time_invested_minutes := 0, apps_involved := [] }⟩

/-! ## Generic list helpers (stable insertion sort, insertion-order dedup) -/

/-- Insert `x` in front of the first element `y` with `le x y`; used to model
Python's stable `sorted`/`list.sort`. -/
def insertLE (le : α → α → Bool) (x : α) : List α → List α
  | [] => [x]
  | y :: ys => if le x y then x :: y :: ys else y :: insertLE le x ys

/-- Stable insertion sort by a boolean `le` relation (models Python `sorted`,
which is a stable sort). -/
def sortByLE (le : α → α → Bool) : List α → List α
  | [] => []
  | x :: xs => insertLE le x (sortByLE le xs)

/-- First-seen-order deduplication; models both `dict.fromkeys` and
first-seen accumulation loops. -/
def dedupKeepFirst [DecidableEq α] (l : List α) : List α :=
  l.foldl (fun acc x => if x ∈ acc then acc else acc ++ [x]) []

/-- Python `lst[-n:]`. -/
def takeLast (n : ℕ) (l : List α) : List α := l.drop (l.length - n)

/-- One `Counter`-style increment: `counter[key] += w`, keeping first-seen key
order (Python dicts preserve insertion order). -/
def bumpCount [DecidableEq α] (key : α) (w : ℕ) : List (α × ℕ) → List (α × ℕ)
  | [] => [(key, w)]
  | (k, c) :: rest =>
      if k = key then (k, c + w) :: rest else (k, c) :: bumpCount key w rest

/-- `Counter.most_common(1)[0][0]`: maximal count, ties resolved in favour of
the first-inserted key (CPython `heapq.nlargest(1, ...)` reduces to `max`,
which returns the first maximal element). -/
def firstMax [DecidableEq α] : List (α × ℕ) → Option α
  | [] => none
  | x :: xs => some (xs.foldl (fun b y => if y.2 > b.2 then y else b) x).1

/-! ## Rounding (Python `round`, half-to-even, at a decimal position) -/

/-- Round half to even to the nearest integer. -/
def round_half_even (q : ℚ) : ℤ :=
  let f : ℤ := Int.floor q
  let r : ℚ := q - f
  if r < 1/2 then f
  else if r > 1/2 then f + 1
  else if f.emod 2 = 0 then f else f + 1

/-- `round(q, 1)`. -/
def round1 (q : ℚ) : ℚ := (round_half_even (q * 10) : ℚ) / 10

/-- `round(q, 3)`. -/
def round3 (q : ℚ) : ℚ := (round_half_even (q * 1000) : ℚ) / 1000

/-! ## Calendar (civil dates, `%H%M%S`, ISO week labels)

These model CPython `datetime.date`/`isocalendar` on the naive timeline.
`civil_from_days` and `days_from_civil` are the standard proleptic-Gregorian
conversions between a day count since 1970-01-01 and a (y, m, d) triple. -/

/-- Civil (year, month, day) from days since 1970-01-01. -/
def civil_from_days (day : ℤ) : ℤ × ℤ × ℤ :=
  let z := day + 719468
  let era := z.ediv 146097
  let doe := z - era * 146097
  let yoe := (doe - doe.ediv 1460 + doe.ediv 36524 - doe.ediv 146096).ediv 365
  let doy := doe - (365 * yoe + yoe.ediv 4 - yoe.ediv 100)
  let mp := (5 * doy + 2).ediv 153
  let d := doy - (153 * mp + 2).ediv 5 + 1
  let m := mp + (if mp < 10 then 3 else -9)
  (yoe + era * 400 + (if m ≤ 2 then 1 else 0), m, d)

/-- Days since 1970-01-01 from a civil (year, month, day). -/
def days_from_civil (y m d : ℤ) : ℤ :=
  let y' := y - (if m ≤ 2 then 1 else 0)
  let era := y'.ediv 400
  let yoe := y' - era * 400
  let doy := (153 * (m + (if m > 2 then -3 else 9)) + 2).ediv 5 + d - 1
  let doe := yoe * 365 + yoe.ediv 4 - yoe.ediv 100 + doy
  era * 146097 + doe - 719468

/-- Zero-padded two-digit decimal rendering (`%02d`). -/
def pad2 (n : ℕ) : String := if n < 10 then "0" ++ toString n else toString n

/-- Zero-padded four-digit year rendering, as `date.isoformat` produces. -/
def pad4 (n : ℤ) : String :=
  if n < 0 then toString n
  else if n < 10 then "000" ++ toString n
  else if n < 100 then "00" ++ toString n
  else if n < 1000 then "0" ++ toString n
  else toString n

/-- `date.isoformat()` for a day count since the epoch. -/
def date_iso_of_day (day : ℤ) : String :=
  let c := civil_from_days day
  pad4 c.1 ++ "-" ++ pad2 c.2.1.toNat ++ "-" ++ pad2 c.2.2.toNat

/-- `strftime('%H%M%S')` for a second-of-day. -/
def hhmmss_of (sod : ℕ) : String :=
  pad2 (sod / 3600) ++ pad2 (sod % 3600 / 60) ++ pad2 (sod % 60)

/-- The session key string
`f"{start.date().isoformat()}_{start.strftime('%H%M%S')}"` of
`clusterer._build_session`, as a function of the floored start second. -/
def session_key_of_sec (s : ℤ) : String :=
  date_iso_of_day (s.ediv 86400) ++ "_" ++ hhmmss_of (s.emod 86400).toNat

/-- The session key string for a timestamp (both components only depend on the
timestamp truncated to whole seconds). -/
def session_key (t : ℚ) : String := session_key_of_sec (Int.floor t)

/-- Number of ISO weeks in ISO year `y` (52 or 53). -/
def iso_weeks_in_year (y : ℤ) : ℤ :=
  let p := fun (yy : ℤ) => (yy + yy.ediv 4 - yy.ediv 100 + yy.ediv 400).emod 7
  if p y = 4 ∨ p (y - 1) = 3 then 53 else 52

/-- The `f"{iso[0]}-W{iso[1]:02d}"` week label of
`patterns.compute_friction_trends`, from `datetime.isocalendar()`. -/
def iso_week_label (t : ℚ) : String :=
  let day : ℤ := (Int.floor t).ediv 86400
  let y := (civil_from_days day).1
  let doy : ℤ := day - days_from_civil y 1 1 + 1
  let wd : ℤ := (day + 3).emod 7 + 1
  let w : ℤ := (10 + doy - wd).ediv 7
  let yw : ℤ × ℤ :=
    if w < 1 then (y - 1, iso_weeks_in_year (y - 1))
    else if w > iso_weeks_in_year y then (y + 1, 1)
    else (y, w)
  toString yw.1 ++ "-W" ++ pad2 yw.2.toNat

/-! ## `inference/clusterer.py` -/

/-- `clusterer._activity_weight`:
`min(len((e.ocr_text or "").strip()) // 200 + 1, 5)`. -/
def activity_weight (e : RawEvent) : ℕ :=
  min (e.ocr_text.trim.length / 200 + 1) 5

/-- The event filter of `_count_focus_switches` step 1: events with an empty
app name or the `"audio"` sentinel are discarded. -/
def keptEvent (e : RawEvent) : Bool :=
  !(e.app_name == "" || e.app_name == "audio")

/-- `int((e.timestamp - start).total_seconds() // FOCUS_WINDOW_SECONDS)` with
`FOCUS_WINDOW_SECONDS = 30`. -/
def bucket_index (start t : ℚ) : ℤ := Int.floor ((t - start) / 30)

/-- The activity-weighted winner of one bucket: accumulate
`counter[app] += activity_weight e` in event order, then take the first
maximal entry (`Counter.most_common(1)`). -/
def bucket_winner (es : List RawEvent) : Option String :=
  firstMax (es.foldl (fun acc e => bumpCount e.app_name (activity_weight e) acc) [])

/-- `clusterer._count_focus_switches`.  Buckets are anchored at the timestamp
of the *first event of the input list* (`events[0]`), before the app-name
filter is applied. -/
def count_focus_switches (events : List RawEvent) : ℕ × List String :=
  match events with
  | [] => (0, [])
  | e0 :: _ =>
    let start := e0.timestamp
    let good := events.filter keptEvent
    if good.isEmpty then (0, [])
    else
      let idxs := dedupKeepFirst (good.map (fun e => bucket_index start e.timestamp))
      let sortedIdxs := sortByLE (fun a b => decide (a ≤ b)) idxs
      let focus_timeline := sortedIdxs.filterMap (fun i =>
        bucket_winner (good.filter (fun e => bucket_index start e.timestamp == i)))
      let switches :=
        (focus_timeline.zip (focus_timeline.drop 1)).countP (fun p => !(p.1 == p.2))
      (switches, dedupKeepFirst focus_timeline)

/-- The friction thresholds of `_build_session`, on switches per minute. -/
def friction_from_rate (spm : ℚ) : FrictionLevel :=
  if spm > 0.5 then FrictionLevel.critical
  else if spm > 0.2 then FrictionLevel.high
  else if spm > 0.1 then FrictionLevel.medium
  else FrictionLevel.low

/-- `(events[-1].timestamp - events[0].timestamp).total_seconds() / 60.0`. -/
def duration_minutes (events : List RawEvent) : ℚ :=
  ((events.getLastD default).timestamp - (events.headD default).timestamp) / 60

/-- `clusterer._build_session`.  Callers guarantee `events ≠ []`, as in the
source (`events[0]` would fail otherwise). -/
def build_session (md5hex : String → String) (events : List RawEvent) :
    WorkflowSession :=
  let sw := count_focus_switches events
  let start := (events.headD default).timestamp
  let stop := (events.getLastD default).timestamp
  let duration_min := duration_minutes events
  let switches_per_min := (sw.1 : ℚ) / max duration_min 1
  { id := (md5hex (session_key start)).take 12,
    start_time := start,
    end_time := stop,
    events := events,
    inferred_intent := "",
    confidence := 0,
    apps_used := sw.2,
    total_duration_minutes := round1 duration_min,
    context_switches := sw.1,
    friction_level := friction_from_rate switches_per_min,
    friction_details := "",
    user_validated := false,
    user_label := "" }

/-- The gap between two consecutive events, in minutes:
`(curr.timestamp - prev.timestamp).total_seconds() / 60.0`. -/
def gap_between (prev curr : RawEvent) : ℚ :=
  (curr.timestamp - prev.timestamp) / 60

/-- The buffer-splitting walk of `cluster_into_sessions`: given the previous
event and the remaining events, return the rest of the current buffer and the
later buffers.  A split happens exactly between adjacent events whose gap
strictly exceeds `gap_minutes`. -/
def split_by_gap (gap_minutes : ℚ) (prev : RawEvent) :
    List RawEvent → List RawEvent × List (List RawEvent)
  | [] => ([], [])
  | curr :: rest =>
    let s := split_by_gap gap_minutes curr rest
    if gap_between prev curr > gap_minutes then ([], (curr :: s.1) :: s.2)
    else (curr :: s.1, s.2)

/-- All candidate session buffers, in chronological order. -/
def cluster_buffers (gap_minutes : ℚ) : List RawEvent → List (List RawEvent)
  | [] => []
  | e :: es =>
    let s := split_by_gap gap_minutes e es
    (e :: s.1) :: s.2

/-- `sorted(events, key=lambda e: e.timestamp)` (stable). -/
def sort_events (events : List RawEvent) : List RawEvent :=
  sortByLE (fun a b => decide (a.timestamp ≤ b.timestamp)) events

/-- `clusterer.cluster_into_sessions`: sort, split at gaps, keep buffers with
at least `min_events` events, build a session from each. -/
def cluster_into_sessions (md5hex : String → String) (events : List RawEvent)
    (gap_minutes : ℚ) (min_events : ℕ) : List WorkflowSession :=
  ((cluster_buffers gap_minutes (sort_events events)).filter
      (fun b => min_events ≤ b.length)).map (build_session md5hex)

/-- The relation between two adjacent session buffers: the gap from the last
event of the first to the first event of the second strictly exceeds the
threshold. -/
def session_boundary (g : ℚ) (b1 b2 : List RawEvent) : Prop :=
  ∀ a c, b1.getLast? = some a → b2.head? = some c → gap_between a c > g

/-! ## `difflib.SequenceMatcher` (as used with `isjunk=None`)

`patterns._intent_similarity` calls
`SequenceMatcher(None, a_clean, b_clean).ratio()`.  The embedding follows
CPython's `difflib` with `isjunk=None`: `bjunk` is always empty (so the
junk-extension loop of `find_longest_match` is a no-op and is omitted), while
the `autojunk` heuristic drops "popular" elements of `b` from `b2j` when
`len(b) >= 200`. -/

/-- The ascending list of positions of `c` in `b` (`b2j` before autojunk). -/
def char_positions (b : List Char) (c : Char) : List ℕ :=
  (List.range b.length).filter (fun j => b.get? j == some c)

/-- `b2j` lookup after the autojunk pass: positions of `c` in `b`, or `[]`
when `len(b) >= 200` and `c` is popular (`count > len(b) // 100 + 1`). -/
def b2j_of (b : List Char) (c : Char) : List ℕ :=
  let ps := char_positions b c
  if b.length ≥ 200 ∧ ps.length > b.length / 100 + 1 then [] else ps

/-- `k = j2len.get(j - 1, 0) + 1` of the `find_longest_match` dynamic
program (`j2len.get(-1, 0) = 0` when `j = 0`). -/
def run_length (j2len : ℕ → ℕ) : ℕ → ℕ
  | 0 => 1
  | j' + 1 => j2len j' + 1

/-- One row `i` of the `find_longest_match` dynamic program: walk the eligible
`j` positions in order, building the new `j2len` row and updating the best
match.  `j2len` maps `j` to the length of the longest run of matches ending at
the previous row and column `j`; absent entries are `0`. -/
def dp_row (i : ℕ) (j2len : ℕ → ℕ) :
    List ℕ → (ℕ → ℕ) × (ℕ × ℕ × ℕ) → (ℕ → ℕ) × (ℕ × ℕ × ℕ)
  | [], acc => acc
  | j :: js, acc =>
    let k : ℕ := run_length j2len j
    dp_row i j2len js
      ((fun x => if x = j then k else acc.1 x),
       if k > acc.2.2.2 then (i + 1 - k, j + 1 - k, k) else acc.2)

/-- The row loop of `find_longest_match` over rows `i, i+1, ..., i+cnt-1`. -/
def dp_loop (a b : List Char) (blo bhi : ℕ) :
    ℕ → ℕ → (ℕ → ℕ) → ℕ × ℕ × ℕ → ℕ × ℕ × ℕ
  | _, 0, _, best => best
  | i, cnt + 1, j2len, best =>
    let js : List ℕ := match a.get? i with
      | some c => (b2j_of b c).filter (fun j => decide (blo ≤ j) && decide (j < bhi))
      | none => []
    let st := dp_row i j2len js ((fun _ => 0), best)
    dp_loop a b blo bhi (i + 1) cnt st.1 st.2

/-- Do positions `i` of `a` and `j` of `b` hold equal characters? -/
def char_match (a b : List Char) (i j : ℕ) : Bool :=
  match a.get? i, b.get? j with
  | some x, some y => x == y
  | _, _ => false

/-- The left (non-junk) extension loop of `find_longest_match`; the fuel is an
upper bound on the iteration count (`besti` suffices, since `besti` decreases
and the guard needs `alo < besti`). -/
def extend_left (a b : List Char) (alo blo : ℕ) :
    ℕ → ℕ × ℕ × ℕ → ℕ × ℕ × ℕ
  | 0, st => st
  | fuel + 1, (i, j, k) =>
    if decide (alo < i) && decide (blo < j) && char_match a b (i - 1) (j - 1)
    then extend_left a b alo blo fuel (i - 1, j - 1, k + 1)
    else (i, j, k)

/-- The right (non-junk) extension loop of `find_longest_match`. -/
def extend_right (a b : List Char) (ahi bhi : ℕ) :
    ℕ → ℕ × ℕ × ℕ → ℕ × ℕ × ℕ
  | 0, st => st
  | fuel + 1, (i, j, k) =>
    if decide (i + k < ahi) && decide (j + k < bhi) && char_match a b (i + k) (j + k)
    then extend_right a b ahi bhi fuel (i, j, k + 1)
    else (i, j, k)

/-- `SequenceMatcher.find_longest_match(alo, ahi, blo, bhi)` with empty
`bjunk`: the dynamic program, then the two non-junk extension loops (the junk
extension loops never fire because `bjunk` is empty). -/
def find_longest_match (a b : List Char) (alo ahi blo bhi : ℕ) : ℕ × ℕ × ℕ :=
  let best := dp_loop a b blo bhi alo (ahi - alo) (fun _ => 0) (alo, blo, 0)
  let bl := extend_left a b alo blo best.1 best
  extend_right a b ahi bhi (ahi - (bl.1 + bl.2.2)) bl

/-- Total size of all matching blocks found by the recursive splitting of
`get_matching_blocks` (the queue order does not affect the total).  The fuel
dominates the recursion depth; `ratio_of` passes enough. -/
def match_total (a b : List Char) : ℕ → ℕ × ℕ → ℕ × ℕ → ℕ
  | 0, _, _ => 0
  | fuel + 1, (alo, ahi), (blo, bhi) =>
    let m := find_longest_match a b alo ahi blo bhi
    if m.2.2 = 0 then 0
    else
      match_total a b fuel (alo, m.1) (blo, m.2.1) + m.2.2 +
        match_total a b fuel (m.1 + m.2.2, ahi) (m.2.1 + m.2.2, bhi)

/-- `SequenceMatcher.ratio()`: `2.0 * M / T` where `M` is the total size of
the matching blocks and `T` the sum of the lengths (`1.0` when both are
empty, per `_calculate_ratio`). -/
def ratio_of (a b : List Char) : ℚ :=
  let total := a.length + b.length
  let m := match_total a b (a.length + b.length + 1) (0, a.length) (0, b.length)
  if total > 0 then 2 * (m : ℚ) / (total : ℚ) else 1

/-- The span discipline of a `find_longest_match` result `(i, j, k)` relative
to the query rectangle: the matched block lies inside `[alo, ahi) x [blo, bhi)`
(with `(alo, blo, 0)` for "no match"). -/
def match_span_ok (alo ahi blo bhi : ℕ) (m : ℕ × ℕ × ℕ) : Prop :=
  alo ≤ m.1 ∧ m.1 + m.2.2 ≤ ahi ∧ blo ≤ m.2.1 ∧ m.2.1 + m.2.2 ≤ bhi

/-! ## `inference/patterns.py` -/

/-- `patterns._intent_similarity`. -/
def intent_similarity (a b : String) : ℚ :=
  if a = "" ∨ b = "" then 0
  else
    let a_clean := a.toLower.trim
    let b_clean := b.toLower.trim
    if a_clean = b_clean then 1
    else ratio_of a_clean.toList b_clean.toList

/-- `patterns._make_pattern_id`. -/
def make_pattern_id (md5hex : String → String) (intent : String) : String :=
  "pat_" ++ (md5hex intent.toLower.trim).take 12

/-- `patterns._friction_score`. -/
def friction_score (level : FrictionLevel) : ℚ :=
  match level with
  | FrictionLevel.low => 0
  | FrictionLevel.medium => 1
  | FrictionLevel.high => 2
  | FrictionLevel.critical => 3

/-- `sorted(sessions, key=lambda s: s.start_time)` (stable). -/
def sort_sessions_by_start (l : List WorkflowSession) : List WorkflowSession :=
  sortByLE (fun a b => decide (a.start_time ≤ b.start_time)) l

/-- The trend computation of `patterns._build_pattern`: compare the mean
friction score of the first and second halves of the time-sorted cluster. -/
def pattern_trend (sorted_sessions : List WorkflowSession) : String :=
  let mid := sorted_sessions.length / 2
  if 0 < mid ∧ 2 < sorted_sessions.length then
    let first_half :=
      (((sorted_sessions.take mid).map
          (fun s => friction_score s.friction_level)).sum) / (mid : ℚ)
    let second_half :=
      (((sorted_sessions.drop mid).map
          (fun s => friction_score s.friction_level)).sum) /
        ((sorted_sessions.length - mid : ℕ) : ℚ)
    let diff := second_half - first_half
    if diff > 0.3 then "worsening"
    else if diff < -0.3 then "improving"
    else "stable"
  else "stable"

/-- `patterns._build_pattern`.  Callers guarantee `sessions ≠ []`. -/
def build_pattern (md5hex : String → String) (intent : String)
    (sessions : List WorkflowSession) : WorkflowPattern :=
  let sorted_sessions := sort_sessions_by_start sessions
  let total_minutes := (sessions.map WorkflowSession.total_duration_minutes).sum
  let avg_minutes := total_minutes / (sessions.length : ℚ)
  let avg_switches :=
    ((sessions.map (fun s => (s.context_switches : ℚ))).sum) / (sessions.length : ℚ)
  let friction_counts :=
    sessions.foldl (fun acc s => bumpCount s.friction_level 1 acc) []
  let most_common_friction := (firstMax friction_counts).getD FrictionLevel.low
  let all_apps := dedupKeepFirst ((sessions.map WorkflowSession.apps_used).flatten)
  { id := make_pattern_id md5hex intent,
    intent := intent,
    occurrences := sessions.length,
    first_seen := (sorted_sessions.headD default).start_time,
    last_seen := (sorted_sessions.getLastD default).start_time,
    avg_duration_minutes := round1 avg_minutes,
    most_common_friction := most_common_friction,
    avg_context_switches := round1 avg_switches,
    session_ids := sessions.map WorkflowSession.id,
    trend := pattern_trend sorted_sessions,
    total_time_invested_minutes := round1 total_minutes,
    apps_involved := all_apps.take 10 }

/-- The cluster-selection scan of `detect_patterns`: index of the cluster
whose canonical (first-member) intent has the highest similarity that is both
strictly above the best so far (initially `0.0`) and at least the threshold;
`none` if no cluster qualifies. -/
def best_cluster_index (similarity_threshold : ℚ) (intent : String)
    (clusters : List (List WorkflowSession)) : Option ℕ :=
  (clusters.foldl (fun (acc : ℚ × Option ℕ × ℕ) c =>
      let sim := intent_similarity intent ((c.headD default).inferred_intent)
      if sim > acc.1 ∧ sim ≥ similarity_threshold
      then (sim, some acc.2.2, acc.2.2 + 1)
      else (acc.1, acc.2.1, acc.2.2 + 1))
    (0, none, 0)).2.1

/-- `best_cluster.append(session)` at a cluster index. -/
def append_at (s : WorkflowSession) : ℕ → List (List WorkflowSession) →
    List (List WorkflowSession)
  | _, [] => []
  | 0, c :: cs => (c ++ [s]) :: cs
  | n + 1, c :: cs => c :: append_at s n cs

/-- The greedy clustering loop of `detect_patterns`: walk the time-sorted
sessions, skipping ids already assigned, appending to the best matching
cluster or starting a new one. -/
def greedy_clusters (similarity_threshold : ℚ)
    (sorted_sessions : List WorkflowSession) :
    List (List WorkflowSession) :=
  (sorted_sessions.foldl
    (fun (st : List (List WorkflowSession) × List String) s =>
      if s.id ∈ st.2 then st
      else
        (match best_cluster_index similarity_threshold s.inferred_intent st.1 with
          | some i => append_at s i st.1
          | none => st.1 ++ [[s]],
         s.id :: st.2))
    ([], [])).1

/-- `patterns.detect_patterns`. -/
def detect_patterns (md5hex : String → String)
    (sessions : List WorkflowSession) (similarity_threshold : ℚ)
    (min_occurrences : ℕ) : List WorkflowPattern :=
  let analyzed := sessions.filter (fun s =>
    !(s.inferred_intent == "") && !(s.inferred_intent == "inference_failed"))
  if analyzed.isEmpty then []
  else
    let clusters := greedy_clusters similarity_threshold
      (sort_sessions_by_start analyzed)
    let patterns := (clusters.filter
        (fun c => min_occurrences ≤ c.length)).filterMap (fun c =>
      match c with
      | [] => none
      | s :: _ => some (build_pattern md5hex s.inferred_intent c))
    sortByLE (fun p q =>
      decide (q.total_time_invested_minutes ≤ p.total_time_invested_minutes))
      patterns

/-- Modelled from the spec (`§4.3` step 5): the midpoint-split trend rule as
the claim states it, applied to the time-sorted cluster — mean friction score
of each half; difference `> 0.3` is "worsening", `< -0.3` is "improving",
otherwise "stable". -/
def spec_trend_rule (sorted_sessions : List WorkflowSession) : String :=
  let mid := sorted_sessions.length / 2
  let first_half :=
    (((sorted_sessions.take mid).map
        (fun s => friction_score s.friction_level)).sum) / (mid : ℚ)
  let second_half :=
    (((sorted_sessions.drop mid).map
        (fun s => friction_score s.friction_level)).sum) /
      ((sorted_sessions.length - mid : ℕ) : ℚ)
  let diff := second_half - first_half
  if diff > 0.3 then "worsening"
  else if diff < -0.3 then "improving"
  else "stable"

/-! ## `patterns.compute_friction_trends` -/

/-- Is a session high-friction (HIGH or CRITICAL)? -/
def is_high_friction (s : WorkflowSession) : Bool :=
  s.friction_level == FrictionLevel.high ||
    s.friction_level == FrictionLevel.critical

/-- The per-week aggregate record built inside `compute_friction_trends` for
one week label and its (insertion-ordered) sessions. -/
def build_trend (week_label : String)
    (week_sessions : List WorkflowSession) : FrictionTrend :=
  let total_min := (week_sessions.map WorkflowSession.total_duration_minutes).sum
  let high_friction_min :=
    ((week_sessions.filter is_high_friction).map
      WorkflowSession.total_duration_minutes).sum
  let total_switches :=
    (week_sessions.map (fun s => (s.context_switches : ℚ))).sum
  let avg_switches :=
    if week_sessions.isEmpty then 0
    else total_switches / (week_sessions.length : ℚ)
  let friction_intents := ((week_sessions.filter
      (fun s => is_high_friction s && !(s.inferred_intent == ""))).map
    WorkflowSession.inferred_intent)
  let intent_counts :=
    friction_intents.foldl (fun acc x => bumpCount x 1 acc) []
  let top_intents :=
    ((sortByLE (fun x y : String × ℕ => decide (y.2 ≤ x.2)) intent_counts).take 3).map
      Prod.fst
  let sorted_s := sort_sessions_by_start week_sessions
  { week_label := week_label,
    week_start := (sorted_s.headD default).start_time,
    week_end := (sorted_s.getLastD default).end_time,
    total_sessions := week_sessions.length,
    total_minutes := round1 total_min,
    high_friction_minutes := round1 high_friction_min,
    high_friction_ratio :=
      if total_min > 0 then round3 (high_friction_min / total_min) else 0,
    avg_switches_per_session := round1 avg_switches,
    top_friction_intents := top_intents }

/-- Grouping by ISO week label (a `defaultdict` keyed by first-seen label,
each group in input order), sorted by label and truncated to the last
`num_weeks` groups. -/
def selected_week_groups (sessions : List WorkflowSession)
    (num_weeks : ℕ) : List (String × List WorkflowSession) :=
  let labels := dedupKeepFirst
    (sessions.map (fun s => iso_week_label s.start_time))
  let pairs := labels.map (fun l =>
    (l, sessions.filter (fun s => iso_week_label s.start_time == l)))
  takeLast num_weeks (sortByLE (fun a b => !decide (b.1 < a.1)) pairs)

/-- `patterns.compute_friction_trends`. -/
def compute_friction_trends (sessions : List WorkflowSession)
    (num_weeks : ℕ) : List FrictionTrend :=
  if sessions.isEmpty then []
  else (selected_week_groups sessions num_weeks).map
    (fun lw => build_trend lw.1 lw.2)

/-! ## `measurement.py` -/

/-- The session filter of `measure_outcome`: recent (started at or after
`now - lookback_days`) and intent-similar (similarity strictly above 0.5). -/
def outcome_matches (outcome_intent : String) (cutoff : ℚ)
    (s : WorkflowSession) : Bool :=
  decide (cutoff ≤ s.start_time) &&
    decide (intent_similarity s.inferred_intent outcome_intent > 0.5)

/-- The unrounded weekly rate of `measure_outcome`: matched minutes scaled by
`lookback_days / 7` (left unscaled when the factor is not positive). -/
def weekly_rate (outcome_intent : String) (recent_sessions : List WorkflowSession)
    (lookback_days : ℕ) (now : ℚ) : ℚ :=
  let cutoff := now - (lookback_days : ℚ) * 86400
  let matching_minutes :=
    ((recent_sessions.filter (outcome_matches outcome_intent cutoff)).map
      WorkflowSession.total_duration_minutes).sum
  let weeks_factor := (lookback_days : ℚ) / 7
  if weeks_factor > 0 then matching_minutes / weeks_factor else matching_minutes

/-- `measurement.measure_outcome` (`datetime.now()` is injected as `now`). -/
def measure_outcome (outcome : ReplacementOutcome)
    (recent_sessions : List WorkflowSession) (lookback_days : ℕ)
    (now : ℚ) : ReplacementOutcome :=
  let after := round1 (weekly_rate outcome.intent recent_sessions lookback_days now)
  let savings := round1 (outcome.before_minutes_per_week - after)
  let weeks := outcome.weeks_tracked + 1
  let cumulative := round1 (savings * (weeks : ℚ))
  let status :=
    if savings > 0 then "adopted"
    else if weeks ≥ 2 ∧ savings ≤ 0 then "rejected"
    else "measuring"
  { outcome with
      after_minutes_per_week := after,
      actual_savings_minutes := savings,
      weeks_tracked := weeks,
      cumulative_savings_minutes := cumulative,
      status := status }

/-- Modelled from the spec (`§4.5` step 2-3): the weekly rate the claim
describes, the matched sessions' total minutes divided by
`lookback_days / 7`, with no rounding.  Used to compare the claim's exact
equality against the code's rounded assignment. -/
def spec_weekly_rate (outcome_intent : String)
    (recent_sessions : List WorkflowSession) (lookback_days : ℕ)
    (now : ℚ) : ℚ :=
  let cutoff := now - (lookback_days : ℚ) * 86400
  ((recent_sessions.filter (outcome_matches outcome_intent cutoff)).map
      WorkflowSession.total_duration_minutes).sum / ((lookback_days : ℚ) / 7)

/-! ## `daemon.py` scheduling helpers -/

/-- `datetime.combine(d, t)` for a day number and a second-of-day. -/
def combine_day_time (d : ℤ) (t : ℚ) : ℚ := (d : ℚ) * 86400 + t

/-- The inner loop of `next_fire_time`: first combined datetime strictly
after `now`, scanning the sorted clock times of one day. -/
def first_fire_on_day (times : List ℚ) (d : ℤ) (now : ℚ) : Option ℚ :=
  (sortByLE (fun a b => decide (a ≤ b)) times).findSome? (fun t =>
    if combine_day_time d t > now then some (combine_day_time d t) else none)

/-- The day-offset loop of `next_fire_time` (`d.weekday() >= 5` skips
weekends; day number + 3 mod 7 is the Monday-based weekday). -/
def next_fire_aux (times : List ℚ) (weekdays_only : Bool) (now : ℚ) :
    List ℕ → Option ℚ
  | [] => none
  | off :: rest =>
    let d : ℤ := (Int.floor (now / 86400)) + off
    if weekdays_only && decide ((d + 3).emod 7 ≥ 5) then
      next_fire_aux times weekdays_only now rest
    else
      match first_fire_on_day times d now with
      | some dt => some dt
      | none => next_fire_aux times weekdays_only now rest

/-- `daemon.next_fire_time`: scan up to 8 days forward; raise `RuntimeError`
(modelled as `Except.error`) if no time fires. -/
def next_fire_time (times : List ℚ) (weekdays_only : Bool) (now : ℚ) :
    Except String ℚ :=
  match next_fire_aux times weekdays_only now (List.range 8) with
  | some dt => Except.ok dt
  | none => Except.error "No fire time found in next 8 days"

/-! ## End of definitions — theorems below -/

/-! ### Generic facts about the stable insertion sort -/

theorem mem_insertLE (le : α → α → Bool) (x : α) :
    ∀ l (a : α), a ∈ insertLE le x l ↔ a = x ∨ a ∈ l
  | [], a => by simp [insertLE]
  | y :: ys, a => by
    simp only [insertLE]
    by_cases h : le x y = true
    · simp [h]
    · simp only [h, Bool.false_eq_true, if_false, List.mem_cons,
        mem_insertLE le x ys a]
      tauto

theorem mem_sortByLE (le : α → α → Bool) :
    ∀ l (a : α), a ∈ sortByLE le l ↔ a ∈ l
  | [], a => by simp [sortByLE]
  | x :: xs, a => by
    simp [sortByLE, mem_insertLE, mem_sortByLE le xs a]

theorem length_insertLE (le : α → α → Bool) (x : α) :
    ∀ l, (insertLE le x l).length = l.length + 1
  | [] => rfl
  | y :: ys => by
    simp only [insertLE]
    by_cases h : le x y = true
    · simp [h]
    · simp [h, length_insertLE le x ys]

theorem length_sortByLE (le : α → α → Bool) :
    ∀ l, (sortByLE le l).length = l.length
  | [] => rfl
  | x :: xs => by
    simp [sortByLE, length_insertLE, length_sortByLE le xs]

theorem pairwise_insertLE {r : α → α → Prop} {le : α → α → Bool}
    (hle : ∀ a b, le a b = true → r a b)
    (htot : ∀ a b, le a b = false → r b a)
    (htrans : ∀ {a b c}, r a b → r b c → r a c) (x : α) :
    ∀ l, l.Pairwise r → (insertLE le x l).Pairwise r
  | [], _ => by simp [insertLE]
  | y :: ys, h => by
    rcases List.pairwise_cons.mp h with ⟨hy, hys⟩
    simp only [insertLE]
    by_cases hxy : le x y = true
    · simp only [hxy, if_true, List.pairwise_cons]
      refine ⟨?_, hy, hys⟩
      intro a ha
      rcases List.mem_cons.mp ha with rfl | ha
      · exact hle _ _ hxy
      · exact htrans (hle _ _ hxy) (hy a ha)
    · simp only [hxy, Bool.false_eq_true, if_false, List.pairwise_cons]
      refine ⟨?_, pairwise_insertLE hle htot htrans x ys hys⟩
      intro a ha
      rcases (mem_insertLE le x ys a).mp ha with rfl | ha
      · exact htot _ _ (Bool.not_eq_true _ ▸ hxy)
      · exact hy a ha

theorem pairwise_sortByLE {r : α → α → Prop} {le : α → α → Bool}
    (hle : ∀ a b, le a b = true → r a b)
    (htot : ∀ a b, le a b = false → r b a)
    (htrans : ∀ {a b c}, r a b → r b c → r a c) :
    ∀ l, (sortByLE le l).Pairwise r
  | [] => List.Pairwise.nil
  | x :: xs =>
    pairwise_insertLE hle htot htrans x _ (pairwise_sortByLE hle htot htrans xs)

/-! ### The gap-splitting walk of the clusterer -/

theorem split_by_gap_join (g : ℚ) :
    ∀ (prev : RawEvent) (l : List RawEvent),
      (split_by_gap g prev l).1 ++ ((split_by_gap g prev l).2).flatten = l
  | _, [] => rfl
  | prev, curr :: rest => by
    simp only [split_by_gap]
    by_cases h : gap_between prev curr > g
    · simp [h, split_by_gap_join g curr rest]
    · simp [h, split_by_gap_join g curr rest]

theorem split_by_gap_nonempty (g : ℚ) :
    ∀ (prev : RawEvent) (l : List RawEvent),
      ∀ b ∈ (split_by_gap g prev l).2, b ≠ []
  | _, [], b => by simp [split_by_gap]
  | prev, curr :: rest, b => by
    simp only [split_by_gap]
    by_cases h : gap_between prev curr > g
    · simp only [h, if_true, List.mem_cons]
      rintro (rfl | hb)
      · simp
      · exact split_by_gap_nonempty g curr rest b hb
    · simp only [h, if_false]
      exact fun hb => split_by_gap_nonempty g curr rest b hb

theorem split_by_gap_chain (g : ℚ) :
    ∀ (prev : RawEvent) (l : List RawEvent),
      List.Chain' (fun a b => gap_between a b ≤ g)
        (prev :: (split_by_gap g prev l).1)
  | _, [] => by simp [split_by_gap]
  | prev, curr :: rest => by
    simp only [split_by_gap]
    by_cases h : gap_between prev curr > g
    · simp [h]
    · simp only [h, if_false]
      exact List.Chain'.cons (le_of_not_lt h) (split_by_gap_chain g curr rest)

theorem split_by_gap_chain_all (g : ℚ) :
    ∀ (prev : RawEvent) (l : List RawEvent),
      ∀ b ∈ (split_by_gap g prev l).2,
        List.Chain' (fun a c => gap_between a c ≤ g) b
  | _, [], b => by simp [split_by_gap]
  | prev, curr :: rest, b => by
    simp only [split_by_gap]
    by_cases h : gap_between prev curr > g
    · simp only [h, if_true, List.mem_cons]
      rintro (rfl | hb)
      · exact split_by_gap_chain g curr rest
      · exact split_by_gap_chain_all g curr rest b hb
    · simp only [h, if_false]
      exact fun hb => split_by_gap_chain_all g curr rest b hb

theorem split_by_gap_boundary (g : ℚ) :
    ∀ (prev : RawEvent) (l : List RawEvent),
      List.Chain' (session_boundary g)
        ((prev :: (split_by_gap g prev l).1) :: (split_by_gap g prev l).2)
  | _, [] => by simp [split_by_gap]
  | prev, curr :: rest => by
    have ih := split_by_gap_boundary g curr rest
    simp only [split_by_gap]
    by_cases h : gap_between prev curr > g
    · simp only [h, if_true]
      exact List.Chain'.cons (fun a c ha hc => by
        simp only [List.getLast?_singleton, Option.some.injEq] at ha
        simp only [List.head?_cons, Option.some.injEq] at hc
        subst ha; subst hc; exact h) ih
    · simp only [h, if_false]
      rcases List.chain'_cons'.mp ih with ⟨hhd, htl⟩
      refine List.chain'_cons'.mpr ⟨?_, htl⟩
      intro y hy a c ha hc
      exact hhd y hy a c (by rwa [List.getLast?_cons_cons] at ha) hc

theorem cluster_buffers_join (g : ℚ) :
    ∀ l : List RawEvent, ((cluster_buffers g l)).flatten = l
  | [] => rfl
  | e :: es => by
    simp [cluster_buffers, split_by_gap_join g e es]

theorem cluster_buffers_nonempty (g : ℚ) :
    ∀ l : List RawEvent, ∀ b ∈ cluster_buffers g l, b ≠ []
  | [], b => by simp [cluster_buffers]
  | e :: es, b => by
    simp only [cluster_buffers, List.mem_cons]
    rintro (rfl | hb)
    · simp
    · exact split_by_gap_nonempty g e es b hb

theorem cluster_buffers_chain (g : ℚ) :
    ∀ l : List RawEvent, ∀ b ∈ cluster_buffers g l,
      List.Chain' (fun a c => gap_between a c ≤ g) b
  | [], b => by simp [cluster_buffers]
  | e :: es, b => by
    simp only [cluster_buffers, List.mem_cons]
    rintro (rfl | hb)
    · exact split_by_gap_chain g e es
    · exact split_by_gap_chain_all g e es b hb

theorem cluster_buffers_boundary (g : ℚ) :
    ∀ l : List RawEvent, List.Chain' (session_boundary g) (cluster_buffers g l)
  | [] => List.chain'_nil
  | e :: es => split_by_gap_boundary g e es

theorem build_session_events (md5hex : String → String) (b : List RawEvent) :
    (build_session md5hex b).events = b := by
  simp only [build_session]

theorem build_session_start_time (md5hex : String → String)
    (b : List RawEvent) :
    (build_session md5hex b).start_time = (b.headD default).timestamp := by
  simp only [build_session]

theorem build_session_id_eq (md5hex : String → String) (b : List RawEvent) :
    (build_session md5hex b).id =
      (md5hex (session_key (build_session md5hex b).start_time)).take 12 := by
  simp only [build_session]

theorem build_session_friction (md5hex : String → String) (b : List RawEvent) :
    (build_session md5hex b).friction_level =
      friction_from_rate
        (((count_focus_switches b).1 : ℚ) / max (duration_minutes b) 1) := by
  simp only [build_session]

theorem cluster_min_one_keeps_all (md5hex : String → String) (g : ℚ)
    (events : List RawEvent) :
    (cluster_into_sessions md5hex events g 1).map WorkflowSession.events =
      cluster_buffers g (sort_events events) := by
  unfold cluster_into_sessions
  rw [List.filter_eq_self.mpr]
  · rw [List.map_map]
    exact List.map_id'' (fun b => build_session_events md5hex b) _
  · intro b hb
    have := cluster_buffers_nonempty g (sort_events events) b hb
    simpa [Nat.one_le_iff_ne_zero, List.length_eq_zero] using this

/-! ### C1 -/

/-- C1: For every non-empty sequence of well-formed events, clustering with
`min_events = 1` never drops events: the returned sessions' event lists, in
chronological order, concatenate to the timestamp-sorted input; within one
session every adjacent gap is at most `gap_minutes`; across every session
boundary (last event of one session to first event of the next) the gap is
strictly greater than `gap_minutes`. -/
theorem c1_cluster_min_events_one_never_drops (md5hex : String → String)
    (gap_minutes : ℚ) (events : List RawEvent) (hne : events ≠ []) :
    ((cluster_into_sessions md5hex events gap_minutes 1).map
        WorkflowSession.events).flatten = sort_events events
    ∧ (∀ s ∈ cluster_into_sessions md5hex events gap_minutes 1,
        List.Chain' (fun a c => gap_between a c ≤ gap_minutes) s.events)
    ∧ List.Chain'
        (fun s1 s2 => session_boundary gap_minutes s1.events s2.events)
        (cluster_into_sessions md5hex events gap_minutes 1) := by
  refine ⟨?_, ?_, ?_⟩
  · rw [cluster_min_one_keeps_all, cluster_buffers_join]
  · intro s hs
    have hmem : s.events ∈ cluster_buffers gap_minutes (sort_events events) := by
      rw [← cluster_min_one_keeps_all md5hex]
      exact List.mem_map_of_mem _ hs
    exact cluster_buffers_chain _ _ _ hmem
  · have hb := cluster_buffers_boundary gap_minutes (sort_events events)
    rw [← cluster_min_one_keeps_all md5hex] at hb
    exact (List.chain'_map _).mp hb

theorem c1_cluster_min_events_one_never_drops_witness :
    ((cluster_into_sessions (fun s => s)
        [mkEvent 120 "A" "", mkEvent 0 "B" "", mkEvent 900 "C" ""] 5 1).map
        WorkflowSession.events).flatten =
      sort_events [mkEvent 120 "A" "", mkEvent 0 "B" "", mkEvent 900 "C" ""]
    ∧ (∀ s ∈ cluster_into_sessions (fun s => s)
        [mkEvent 120 "A" "", mkEvent 0 "B" "", mkEvent 900 "C" ""] 5 1,
        List.Chain' (fun a c => gap_between a c ≤ 5) s.events)
    ∧ List.Chain' (fun s1 s2 => session_boundary 5 s1.events s2.events)
        (cluster_into_sessions (fun s => s)
          [mkEvent 120 "A" "", mkEvent 0 "B" "", mkEvent 900 "C" ""] 5 1) :=
  c1_cluster_min_events_one_never_drops (fun s => s) 5
    [mkEvent 120 "A" "", mkEvent 0 "B" "", mkEvent 900 "C" ""] (by with_unfolding_all decide)

/-! ### C2 -/

theorem friction_from_rate_mono {x y : ℚ} (h : x ≤ y) :
    friction_score (friction_from_rate x) ≤
      friction_score (friction_from_rate y) := by
  unfold friction_from_rate
  split_ifs <;> simp [friction_score] <;> linarith

/-- C2: The friction level of every session built by the clusterer is
determined from switches-per-minute, `switches / max(duration_minutes, 1.0)`,
by the thresholds `> 0.5 → CRITICAL`, `> 0.2 → HIGH`, `> 0.1 → MEDIUM`, else
`LOW`; consequently of two sessions with equal duration, the one with
strictly more switches never has a strictly lower friction level. -/
theorem c2_friction_thresholds_monotone (md5hex : String → String)
    (es1 es2 : List RawEvent) (h1 : es1 ≠ []) (h2 : es2 ≠ []) :
    ((build_session md5hex es1).friction_level =
      (if ((count_focus_switches es1).1 : ℚ) / max (duration_minutes es1) 1 > 0.5
        then FrictionLevel.critical
       else if ((count_focus_switches es1).1 : ℚ) / max (duration_minutes es1) 1 > 0.2
        then FrictionLevel.high
       else if ((count_focus_switches es1).1 : ℚ) / max (duration_minutes es1) 1 > 0.1
        then FrictionLevel.medium
       else FrictionLevel.low))
    ∧ (duration_minutes es1 = duration_minutes es2 →
        (count_focus_switches es2).1 < (count_focus_switches es1).1 →
        friction_score (build_session md5hex es2).friction_level ≤
          friction_score (build_session md5hex es1).friction_level) := by
  constructor
  · rw [build_session_friction, friction_from_rate]
  · intro hd hsw
    rw [build_session_friction, build_session_friction]
    apply friction_from_rate_mono
    rw [← hd]
    have hpos : (0 : ℚ) < max (duration_minutes es1) 1 :=
      lt_of_lt_of_le one_pos (le_max_right _ 1)
    exact (div_le_div_right hpos).mpr (by exact_mod_cast hsw.le)

theorem c2_friction_thresholds_monotone_witness :
    ((build_session (fun s => s) [mkEvent 0 "A" "", mkEvent 300 "B" ""]).friction_level =
      (if ((count_focus_switches [mkEvent 0 "A" "", mkEvent 300 "B" ""]).1 : ℚ) /
            max (duration_minutes [mkEvent 0 "A" "", mkEvent 300 "B" ""]) 1 > 0.5
        then FrictionLevel.critical
       else if ((count_focus_switches [mkEvent 0 "A" "", mkEvent 300 "B" ""]).1 : ℚ) /
            max (duration_minutes [mkEvent 0 "A" "", mkEvent 300 "B" ""]) 1 > 0.2
        then FrictionLevel.high
       else if ((count_focus_switches [mkEvent 0 "A" "", mkEvent 300 "B" ""]).1 : ℚ) /
            max (duration_minutes [mkEvent 0 "A" "", mkEvent 300 "B" ""]) 1 > 0.1
        then FrictionLevel.medium
       else FrictionLevel.low))
    ∧ (duration_minutes [mkEvent 0 "A" "", mkEvent 300 "B" ""] =
        duration_minutes [mkEvent 0 "A" "", mkEvent 300 "A" ""] →
        (count_focus_switches [mkEvent 0 "A" "", mkEvent 300 "A" ""]).1 <
          (count_focus_switches [mkEvent 0 "A" "", mkEvent 300 "B" ""]).1 →
        friction_score (build_session (fun s => s)
            [mkEvent 0 "A" "", mkEvent 300 "A" ""]).friction_level ≤
          friction_score (build_session (fun s => s)
            [mkEvent 0 "A" "", mkEvent 300 "B" ""]).friction_level) :=
  c2_friction_thresholds_monotone (fun s => s)
    [mkEvent 0 "A" "", mkEvent 300 "B" ""]
    [mkEvent 0 "A" "", mkEvent 300 "A" ""] (by with_unfolding_all decide) (by with_unfolding_all decide)

/-! ### C3 and C9 -/

theorem pairwise_head_le {l : List RawEvent}
    (h : l.Pairwise (fun a c => a.timestamp ≤ c.timestamp)) :
    ∀ e ∈ l, (l.headD default).timestamp ≤ e.timestamp := by
  cases l with
  | nil => intro e he; cases he
  | cons x xs =>
    intro e he
    rcases List.mem_cons.mp he with rfl | he
    · exact le_refl _
    · exact (List.pairwise_cons.mp h).1 e he

theorem mem_cluster_into_sessions {md5hex : String → String} {g : ℚ} {m : ℕ}
    {events : List RawEvent} {s : WorkflowSession}
    (hs : s ∈ cluster_into_sessions md5hex events g m) :
    ∃ b, s = build_session md5hex b ∧ b ≠ [] ∧
      b.Pairwise (fun a c => a.timestamp ≤ c.timestamp) := by
  unfold cluster_into_sessions at hs
  rcases List.mem_map.mp hs with ⟨b, hb, rfl⟩
  have hbuf : b ∈ cluster_buffers g (sort_events events) :=
    List.mem_of_mem_filter hb
  refine ⟨b, rfl, cluster_buffers_nonempty _ _ _ hbuf, ?_⟩
  have hsub : List.Sublist b ((cluster_buffers g (sort_events events)).flatten) :=
    List.sublist_flatten_of_mem hbuf
  rw [cluster_buffers_join] at hsub
  have hsorted : (sort_events events).Pairwise
      (fun a c => a.timestamp ≤ c.timestamp) :=
    @pairwise_sortByLE RawEvent (fun a c => a.timestamp ≤ c.timestamp)
      (fun a c => decide (a.timestamp ≤ c.timestamp))
      (fun a c h => of_decide_eq_true h)
      (fun a c h => le_of_not_le (of_decide_eq_false h))
      (fun hab hbc => le_trans hab hbc) events
  exact hsorted.sublist hsub

/-- C3: The id of every session produced by the clusterer is the first 12
characters of the content hash of `"{start date ISO}_{start time HHMMSS}"`
built from the session's first (earliest) event timestamp, so clustering the
same event window again (same start instant) yields the same session id. -/
theorem c3_session_id_from_start_hash (md5hex : String → String) (g : ℚ)
    (min_events : ℕ) (events : List RawEvent) :
    ∀ s ∈ cluster_into_sessions md5hex events g min_events,
      s.id = (md5hex (session_key s.start_time)).take 12
      ∧ s.start_time = (s.events.headD default).timestamp
      ∧ (∀ e ∈ s.events, s.start_time ≤ e.timestamp)
      ∧ ∀ (events2 : List RawEvent) (g2 : ℚ) (m2 : ℕ),
          ∀ s2 ∈ cluster_into_sessions md5hex events2 g2 m2,
            s2.start_time = s.start_time → s2.id = s.id := by
  intro s hs
  rcases mem_cluster_into_sessions hs with ⟨b, rfl, hne, hsorted⟩
  refine ⟨build_session_id_eq md5hex b, ?_, ?_, ?_⟩
  · rw [build_session_events, build_session_start_time]
  · intro e he
    rw [build_session_events] at he
    rw [build_session_start_time]
    exact pairwise_head_le hsorted e he
  · intro events2 g2 m2 s2 hs2 hstart
    rcases mem_cluster_into_sessions hs2 with ⟨b2, rfl, hne2, _⟩
    rw [build_session_id_eq, build_session_id_eq, hstart]

theorem c3_session_id_from_start_hash_witness :
    (cluster_into_sessions (fun s => s)
        [mkEvent 120 "A" "", mkEvent 0 "B" "", mkEvent 900 "C" ""] 5 1).headD
        default ∈
      cluster_into_sessions (fun s => s)
        [mkEvent 120 "A" "", mkEvent 0 "B" "", mkEvent 900 "C" ""] 5 1
    ∧ (((cluster_into_sessions (fun s => s)
        [mkEvent 120 "A" "", mkEvent 0 "B" "", mkEvent 900 "C" ""] 5 1).headD
        default).id =
      ((session_key ((cluster_into_sessions (fun s => s)
        [mkEvent 120 "A" "", mkEvent 0 "B" "", mkEvent 900 "C" ""] 5 1).headD
        default).start_time)).take 12) :=
  ⟨by with_unfolding_all decide,
   (c3_session_id_from_start_hash (fun s => s) 5 1
      [mkEvent 120 "A" "", mkEvent 0 "B" "", mkEvent 900 "C" ""]
      _ (by with_unfolding_all decide)).1⟩

/-- C9: The session id depends only on the first event's timestamp truncated
to whole seconds: two builder calls whose event lists start in the same
second produce identical ids, whatever the member events, end times,
durations, switch counts and other fields are. -/
theorem c9_session_id_ignores_subsecond_and_content
    (md5hex : String → String) (es1 es2 : List RawEvent)
    (h1 : es1 ≠ []) (h2 : es2 ≠ [])
    (h : Int.floor (es1.headD default).timestamp =
      Int.floor (es2.headD default).timestamp) :
    (build_session md5hex es1).id = (build_session md5hex es2).id := by
  rw [build_session_id_eq, build_session_id_eq, build_session_start_time,
    build_session_start_time]
  unfold session_key
  rw [h]

theorem c9_session_id_ignores_subsecond_and_content_witness :
    (build_session (fun s => s)
        [mkEvent (101/10) "A" ""]).id =
      (build_session (fun s => s)
        [mkEvent (109/10) "B" "xyz", mkEvent 500 "C" "w"]).id :=
  c9_session_id_ignores_subsecond_and_content (fun s => s)
    [mkEvent (101/10) "A" ""]
    [mkEvent (109/10) "B" "xyz", mkEvent 500 "C" "w"]
    (by with_unfolding_all decide) (by with_unfolding_all decide) (by with_unfolding_all decide)

/-! ### C8 -/

theorem first_fire_on_day_nil (d : ℤ) (now : ℚ) :
    first_fire_on_day [] d now = none := rfl

theorem next_fire_aux_nil_times (weekdays_only : Bool) (now : ℚ) :
    ∀ l : List ℕ, next_fire_aux [] weekdays_only now l = none
  | [] => rfl
  | off :: rest => by
    simp only [next_fire_aux, first_fire_on_day_nil]
    split
    · exact next_fire_aux_nil_times weekdays_only now rest
    · exact next_fire_aux_nil_times weekdays_only now rest

/-- C8: Calling the next-fire-time scheduling helper with an empty set of
clock times always produces the explicit `RuntimeError` failure (it never
returns a fire time), for every `weekdays_only` flag and every `now`. -/
theorem c8_next_fire_time_empty_times_errors (weekdays_only : Bool) (now : ℚ) :
    next_fire_time [] weekdays_only now =
      Except.error "No fire time found in next 8 days" := by
  unfold next_fire_time
  rw [next_fire_aux_nil_times]

/-! ### C10 -/

/-- C10: The focus-switch denoiser anchors its 30-second buckets at the first
event of its input even when that event is discarded for having the `"audio"`
sentinel app name: prepending such an event leaves the surviving events
unchanged but shifts every bucket boundary, changing both the returned switch
count (0 to 1) and the returned app order (`["A"]` to `["A", "B"]`). -/
theorem c10_denoiser_anchor_discarded_event :
    List.filter keptEvent
        (mkEvent 0 "audio" "" ::
          [mkEvent 29 "A" "", mkEvent 31 "B" "", mkEvent 59 "A" ""]) =
      List.filter keptEvent
        [mkEvent 29 "A" "", mkEvent 31 "B" "", mkEvent 59 "A" ""]
    ∧ count_focus_switches
        [mkEvent 29 "A" "", mkEvent 31 "B" "", mkEvent 59 "A" ""] = (0, ["A"])
    ∧ count_focus_switches
        (mkEvent 0 "audio" "" ::
          [mkEvent 29 "A" "", mkEvent 31 "B" "", mkEvent 59 "A" ""]) =
        (1, ["A", "B"]) := by
  with_unfolding_all decide

/-! ### C4: the matched-block total never exceeds either length -/

theorem dp_row_ok {alo ahi blo bhi i : ℕ} (hi : alo ≤ i) (hi2 : i < ahi)
    {j2len : ℕ → ℕ}
    (hold : ∀ j, j2len j ≠ 0 →
      blo ≤ j ∧ j2len j ≤ j + 1 - blo ∧ j2len j ≤ i - alo) :
    ∀ (js : List ℕ) (acc : (ℕ → ℕ) × (ℕ × ℕ × ℕ)),
      (∀ j ∈ js, blo ≤ j ∧ j < bhi) →
      match_span_ok alo ahi blo bhi acc.2 →
      (∀ x, acc.1 x ≠ 0 →
        blo ≤ x ∧ acc.1 x ≤ x + 1 - blo ∧ acc.1 x ≤ i + 1 - alo) →
      match_span_ok alo ahi blo bhi (dp_row i j2len js acc).2
      ∧ ∀ x, (dp_row i j2len js acc).1 x ≠ 0 →
          blo ≤ x ∧ (dp_row i j2len js acc).1 x ≤ x + 1 - blo ∧
            (dp_row i j2len js acc).1 x ≤ i + 1 - alo
  | [], acc, _, hb, hn => ⟨hb, hn⟩
  | j :: js, acc, hjs, hb, hn => by
    have hj := hjs j (List.mem_cons_self j js)
    have hkb : run_length j2len j ≤ j + 1 - blo
        ∧ run_length j2len j ≤ i + 1 - alo := by
      cases j with
      | zero =>
        simp only [run_length]
        omega
      | succ j' =>
        simp only [run_length]
        by_cases hz : j2len j' = 0
        · omega
        · have h3 := hold j' hz
          omega
    simp only [dp_row]
    refine dp_row_ok hi hi2 hold js _ (fun x hx => hjs x (List.mem_cons_of_mem j hx))
      ?_ ?_
    · dsimp only
      split
      · unfold match_span_ok
        dsimp only
        omega
      · exact hb
    · intro x
      dsimp only
      split
      · rename_i hxj
        subst hxj
        intro _
        exact ⟨hj.1, hkb.1, hkb.2⟩
      · exact hn x

theorem dp_loop_ok (a b : List Char) (alo ahi blo bhi : ℕ) :
    ∀ (cnt i : ℕ) (j2len : ℕ → ℕ) (best : ℕ × ℕ × ℕ),
      alo ≤ i → i + cnt ≤ ahi →
      (∀ j, j2len j ≠ 0 →
        blo ≤ j ∧ j2len j ≤ j + 1 - blo ∧ j2len j ≤ i - alo) →
      match_span_ok alo ahi blo bhi best →
      match_span_ok alo ahi blo bhi (dp_loop a b blo bhi i cnt j2len best)
  | 0, i, j2len, best, _, _, _, hb => hb
  | cnt + 1, i, j2len, best, hi, hcnt, hold, hb => by
    simp only [dp_loop]
    have hjs : ∀ js0 : List ℕ,
        ∀ j ∈ js0.filter (fun j => decide (blo ≤ j) && decide (j < bhi)),
          blo ≤ j ∧ j < bhi := by
      intro js0 j hj
      have := List.of_mem_filter hj
      simp only [Bool.and_eq_true, decide_eq_true_eq] at this
      exact this
    have hstep := dp_row_ok hi (by omega) hold
      (match a.get? i with
        | some c => (b2j_of b c).filter (fun j => decide (blo ≤ j) && decide (j < bhi))
        | none => [])
      ((fun _ => 0), best)
      (by
        match h : a.get? i with
        | some c => exact hjs (b2j_of b c)
        | none => intro j hj; cases hj)
      hb
      (fun x hx => absurd rfl hx)
    exact dp_loop_ok a b alo ahi blo bhi cnt (i + 1) _ _ (by omega) (by omega)
      (fun j hj => by
        have := hstep.2 j hj
        omega)
      hstep.1

theorem extend_left_ok (a b : List Char) {alo ahi blo bhi : ℕ} :
    ∀ (fuel : ℕ) (st : ℕ × ℕ × ℕ),
      match_span_ok alo ahi blo bhi st →
      match_span_ok alo ahi blo bhi (extend_left a b alo blo fuel st)
  | 0, st, h => h
  | fuel + 1, (i, j, k), h => by
    simp only [extend_left]
    split
    · rename_i hcond
      simp only [Bool.and_eq_true, decide_eq_true_eq] at hcond
      refine extend_left_ok a b fuel (i - 1, j - 1, k + 1) ?_
      unfold match_span_ok at h ⊢
      dsimp only at h ⊢
      omega
    · exact h

theorem extend_right_ok (a b : List Char) {alo ahi blo bhi : ℕ} :
    ∀ (fuel : ℕ) (st : ℕ × ℕ × ℕ),
      match_span_ok alo ahi blo bhi st →
      match_span_ok alo ahi blo bhi (extend_right a b ahi bhi fuel st)
  | 0, st, h => h
  | fuel + 1, (i, j, k), h => by
    simp only [extend_right]
    split
    · rename_i hcond
      simp only [Bool.and_eq_true, decide_eq_true_eq] at hcond
      refine extend_right_ok a b fuel (i, j, k + 1) ?_
      unfold match_span_ok at h ⊢
      dsimp only at h ⊢
      omega
    · exact h

theorem find_longest_match_ok (a b : List Char) {alo ahi blo bhi : ℕ}
    (ha : alo ≤ ahi) (hb : blo ≤ bhi) :
    match_span_ok alo ahi blo bhi (find_longest_match a b alo ahi blo bhi) := by
  unfold find_longest_match
  refine extend_right_ok a b _ _ (extend_left_ok a b _ _ ?_)
  exact dp_loop_ok a b alo ahi blo bhi (ahi - alo) alo (fun _ => 0) (alo, blo, 0)
    (le_refl alo) (by omega) (fun j hj => absurd rfl hj)
    (by unfold match_span_ok; dsimp only; omega)

theorem match_total_le (a b : List Char) :
    ∀ (fuel alo ahi blo bhi : ℕ), alo ≤ ahi → blo ≤ bhi →
      match_total a b fuel (alo, ahi) (blo, bhi) ≤
        min (ahi - alo) (bhi - blo)
  | 0, _, _, _, _, _, _ => Nat.zero_le _
  | fuel + 1, alo, ahi, blo, bhi, ha, hb => by
    simp only [match_total]
    split
    · exact Nat.zero_le _
    · rename_i hk
      have hspan := find_longest_match_ok a b ha hb
      unfold match_span_ok at hspan
      obtain ⟨h1, h2, h3, h4⟩ := hspan
      have hleft := match_total_le a b fuel alo (find_longest_match a b alo ahi blo bhi).1
        blo (find_longest_match a b alo ahi blo bhi).2.1 h1 h3
      have hright := match_total_le a b fuel
        ((find_longest_match a b alo ahi blo bhi).1 +
          (find_longest_match a b alo ahi blo bhi).2.2) ahi
        ((find_longest_match a b alo ahi blo bhi).2.1 +
          (find_longest_match a b alo ahi blo bhi).2.2) bhi h2 h4
      omega

theorem ratio_of_bounds (a b : List Char) :
    0 ≤ ratio_of a b ∧ ratio_of a b ≤ 1 := by
  have hm := match_total_le a b (a.length + b.length + 1) 0 a.length 0 b.length
    (Nat.zero_le _) (Nat.zero_le _)
  have h2m : 2 * match_total a b (a.length + b.length + 1) (0, a.length) (0, b.length) ≤
      a.length + b.length := by omega
  unfold ratio_of
  dsimp only
  constructor
  · split
    · positivity
    · norm_num
  · split
    · rename_i hpos
      rw [div_le_one (by exact_mod_cast hpos)]
      exact_mod_cast h2m
    · norm_num

/-- C4 (amended): The intent-similarity function always returns a value in
the interval `[0, 1]` (but it is not symmetric in general; see the
counterexample). -/
theorem c4_similarity_bounded (a b : String) :
    0 ≤ intent_similarity a b ∧ intent_similarity a b ≤ 1 := by
  unfold intent_similarity
  split
  · norm_num
  · dsimp only
    split
    · norm_num
    · exact ratio_of_bounds _ _

/-- C4 counterexample: the intent-similarity function is not symmetric;
`SequenceMatcher` ratios depend on the argument order
(`similarity("aba", "babba") = 0.75` but `similarity("babba", "aba") = 0.5`,
matching CPython `difflib`). -/
theorem c4_similarity_not_symmetric :
    intent_similarity "aba" "babba" = 3/4
    ∧ intent_similarity "babba" "aba" = 1/2
    ∧ intent_similarity "aba" "babba" ≠ intent_similarity "babba" "aba" := by
  with_unfolding_all decide

/-! ### C5 -/

theorem build_pattern_trend (md5hex : String → String) (intent : String)
    (c : List WorkflowSession) :
    (build_pattern md5hex intent c).trend =
      pattern_trend (sort_sessions_by_start c) := by
  simp only [build_pattern]

theorem pattern_trend_of_le {l : List WorkflowSession} (h : l.length ≤ 2) :
    pattern_trend l = "stable" := by
  unfold pattern_trend
  dsimp only
  rw [if_neg (show ¬(0 < l.length / 2 ∧ 2 < l.length) by omega)]

theorem pattern_trend_of_gt {l : List WorkflowSession} (h : 2 < l.length) :
    pattern_trend l = spec_trend_rule l := by
  unfold pattern_trend spec_trend_rule
  dsimp only
  rw [if_pos (show 0 < l.length / 2 ∧ 2 < l.length by omega)]

/-- C5: Every pattern built by pattern detection comes from a non-empty
cluster via `_build_pattern`, its trend is computed by splitting the
time-sorted cluster at the midpoint and comparing mean friction scores
(`> 0.3` worsening, `< -0.3` improving, else stable), and any cluster of two
or fewer sessions always gets trend `"stable"`. -/
theorem c5_pattern_trend_rule (md5hex : String → String)
    (sessions : List WorkflowSession) (similarity_threshold : ℚ)
    (min_occurrences : ℕ) :
    ∀ p ∈ detect_patterns md5hex sessions similarity_threshold min_occurrences,
      ∃ cluster : List WorkflowSession, cluster ≠ []
        ∧ p = build_pattern md5hex (cluster.headD default).inferred_intent cluster
        ∧ (cluster.length ≤ 2 → p.trend = "stable")
        ∧ (2 < cluster.length →
            p.trend = spec_trend_rule (sort_sessions_by_start cluster)) := by
  intro p hp
  unfold detect_patterns at hp
  dsimp only at hp
  split at hp
  · cases hp
  · rw [mem_sortByLE] at hp
    rcases List.mem_filterMap.mp hp with ⟨c, hc, hfc⟩
    match c, hfc with
    | [], hfc => exact absurd hfc (by simp)
    | s :: rest, hfc =>
      obtain rfl := (Option.some.inj hfc).symm
      have hlen : (sort_sessions_by_start (s :: rest)).length = (s :: rest).length := by
        unfold sort_sessions_by_start
        exact length_sortByLE _ _
      refine ⟨s :: rest, by simp, rfl, ?_, ?_⟩
      · intro h2
        rw [build_pattern_trend]
        exact pattern_trend_of_le (by omega)
      · intro h2
        rw [build_pattern_trend]
        exact pattern_trend_of_gt (by omega)

theorem c5_pattern_trend_rule_witness :
    ∃ cluster : List WorkflowSession, cluster ≠ []
      ∧ (detect_patterns (fun s => s)
          [mkSession "s1" 0 600 10 "a" FrictionLevel.low 0,
           mkSession "s2" 700 1300 10 "a" FrictionLevel.low 0,
           mkSession "s3" 1400 2000 10 "a" FrictionLevel.critical 0]
          (11/20) 2).headD default =
        build_pattern (fun s => s) (cluster.headD default).inferred_intent cluster
      ∧ (cluster.length ≤ 2 →
          ((detect_patterns (fun s => s)
            [mkSession "s1" 0 600 10 "a" FrictionLevel.low 0,
             mkSession "s2" 700 1300 10 "a" FrictionLevel.low 0,
             mkSession "s3" 1400 2000 10 "a" FrictionLevel.critical 0]
            (11/20) 2).headD default).trend = "stable")
      ∧ (2 < cluster.length →
          ((detect_patterns (fun s => s)
            [mkSession "s1" 0 600 10 "a" FrictionLevel.low 0,
             mkSession "s2" 700 1300 10 "a" FrictionLevel.low 0,
             mkSession "s3" 1400 2000 10 "a" FrictionLevel.critical 0]
            (11/20) 2).headD default).trend =
            spec_trend_rule (sort_sessions_by_start cluster)) :=
  c5_pattern_trend_rule (fun s => s)
    [mkSession "s1" 0 600 10 "a" FrictionLevel.low 0,
     mkSession "s2" 700 1300 10 "a" FrictionLevel.low 0,
     mkSession "s3" 1400 2000 10 "a" FrictionLevel.critical 0]
    (11/20) 2 _ (by with_unfolding_all decide)

/-! ### C6 -/

theorem round_half_even_intCast (z : ℤ) : round_half_even (z : ℚ) = z := by
  unfold round_half_even
  dsimp only
  rw [Int.floor_intCast, if_pos (show (z : ℚ) - ((z : ℤ) : ℚ) < 1/2 by norm_num)]

theorem round_half_even_bounds {q : ℚ} {n : ℤ} (h0 : 0 ≤ q) (h1 : q ≤ (n : ℚ)) :
    0 ≤ round_half_even q ∧ round_half_even q ≤ n := by
  unfold round_half_even
  dsimp only
  have hf0 : 0 ≤ ⌊q⌋ := Int.floor_nonneg.mpr h0
  have hfl : (⌊q⌋ : ℚ) ≤ q := Int.floor_le q
  have hfn : ⌊q⌋ ≤ n := by exact_mod_cast le_trans hfl h1
  split_ifs with hr1 hr2 hev
  · exact ⟨hf0, hfn⟩
  · have hlt : (⌊q⌋ : ℚ) + 1/2 < (n : ℚ) := by linarith
    have : (⌊q⌋ : ℚ) < (n : ℚ) := by linarith
    have : ⌊q⌋ < n := by exact_mod_cast this
    constructor <;> omega
  · exact ⟨hf0, hfn⟩
  · have heq : q - (⌊q⌋ : ℚ) = 1/2 := le_antisymm (le_of_not_lt hr2) (le_of_not_lt hr1)
    have : (⌊q⌋ : ℚ) + 1/2 ≤ (n : ℚ) := by linarith
    have : (⌊q⌋ : ℚ) < (n : ℚ) := by linarith
    have : ⌊q⌋ < n := by exact_mod_cast this
    constructor <;> omega

theorem round3_bounds {q : ℚ} (h0 : 0 ≤ q) (h1 : q ≤ 1) :
    0 ≤ round3 q ∧ round3 q ≤ 1 := by
  have hb := round_half_even_bounds (q := q * 1000) (n := 1000)
    (by linarith) (by push_cast; linarith)
  unfold round3
  constructor
  · have : (0 : ℚ) ≤ (round_half_even (q * 1000) : ℚ) := by exact_mod_cast hb.1
    linarith
  · have : (round_half_even (q * 1000) : ℚ) ≤ 1000 := by exact_mod_cast hb.2
    linarith

theorem build_trend_ratio_eq (label : String) (ws : List WorkflowSession) :
    FrictionTrend.high_friction_ratio (build_trend label ws) =
      (if ((ws.map WorkflowSession.total_duration_minutes).sum) > 0
       then round3
         ((((ws.filter is_high_friction).map
             WorkflowSession.total_duration_minutes).sum) /
          ((ws.map WorkflowSession.total_duration_minutes).sum))
       else 0) := by
  simp only [build_trend]

theorem build_trend_ratio_bounds (label : String) (ws : List WorkflowSession)
    (h : ∀ s ∈ ws, 0 ≤ s.total_duration_minutes) :
    0 ≤ FrictionTrend.high_friction_ratio (build_trend label ws)
    ∧ FrictionTrend.high_friction_ratio (build_trend label ws) ≤ 1 := by
  rw [build_trend_ratio_eq]
  split
  · rename_i hpos
    have hmem : ∀ x ∈ ws.map WorkflowSession.total_duration_minutes, 0 ≤ x := by
      intro x hx
      rcases List.mem_map.mp hx with ⟨s, hs, rfl⟩
      exact h s hs
    have hnn : 0 ≤ ((ws.filter is_high_friction).map
        WorkflowSession.total_duration_minutes).sum := by
      apply List.sum_nonneg
      intro x hx
      rcases List.mem_map.mp hx with ⟨s, hs, rfl⟩
      exact h s (List.mem_of_mem_filter hs)
    have hsub : ((ws.filter is_high_friction).map
        WorkflowSession.total_duration_minutes).sum ≤
        (ws.map WorkflowSession.total_duration_minutes).sum := by
      apply List.Sublist.sum_le_sum _ hmem
      exact (List.filter_sublist ws).map WorkflowSession.total_duration_minutes
    exact round3_bounds (div_nonneg hnn hpos.le) ((div_le_one hpos).mpr hsub)
  · norm_num

theorem mem_compute_friction_trends {sessions : List WorkflowSession}
    {nw : ℕ} {t : FrictionTrend}
    (ht : t ∈ compute_friction_trends sessions nw) :
    ∃ label, t = build_trend label
      (sessions.filter (fun s => iso_week_label s.start_time == label)) := by
  unfold compute_friction_trends at ht
  split at ht
  · cases ht
  · rcases List.mem_map.mp ht with ⟨lw, hlw, rfl⟩
    unfold selected_week_groups takeLast at hlw
    have hlw2 := (List.drop_sublist _ _).subset hlw
    rw [mem_sortByLE] at hlw2
    rcases List.mem_map.mp hlw2 with ⟨label, _, rfl⟩
    exact ⟨label, rfl⟩

/-- C6: For every FrictionTrend computed from sessions with non-negative
durations, the high-friction ratio lies in `[0, 1]`; and whenever a week's
total minutes sum to zero, the ratio is exactly 0. -/
theorem c6_trend_ratio_bounds (sessions : List WorkflowSession)
    (num_weeks : ℕ) (h : ∀ s ∈ sessions, 0 ≤ s.total_duration_minutes) :
    (∀ t ∈ compute_friction_trends sessions num_weeks,
      0 ≤ FrictionTrend.high_friction_ratio t
      ∧ FrictionTrend.high_friction_ratio t ≤ 1)
    ∧ ∀ (label : String) (week_sessions : List WorkflowSession),
        (week_sessions.map WorkflowSession.total_duration_minutes).sum = 0 →
        FrictionTrend.high_friction_ratio (build_trend label week_sessions) = 0 := by
  constructor
  · intro t ht
    rcases mem_compute_friction_trends ht with ⟨label, rfl⟩
    refine build_trend_ratio_bounds label _ ?_
    intro s hs
    exact h s (List.mem_of_mem_filter hs)
  · intro label ws hzero
    rw [build_trend_ratio_eq, hzero]
    norm_num

theorem c6_trend_ratio_bounds_witness :
    (∀ t ∈ compute_friction_trends
        [mkSession "s1" 0 600 10 "a" FrictionLevel.high 3] 4,
      0 ≤ FrictionTrend.high_friction_ratio t
      ∧ FrictionTrend.high_friction_ratio t ≤ 1)
    ∧ ∀ (label : String) (week_sessions : List WorkflowSession),
        (week_sessions.map WorkflowSession.total_duration_minutes).sum = 0 →
        FrictionTrend.high_friction_ratio (build_trend label week_sessions) = 0 :=
  c6_trend_ratio_bounds [mkSession "s1" 0 600 10 "a" FrictionLevel.high 3] 4
    (by with_unfolding_all decide)

/-! ### C7 -/

theorem round1_round1_mul_nat (x : ℚ) (n : ℕ) :
    round1 (round1 x * (n : ℚ)) = round1 x * (n : ℚ) := by
  unfold round1
  have h : (round_half_even (x * 10) : ℚ) / 10 * (n : ℚ) * 10 =
      ((round_half_even (x * 10) * (n : ℤ) : ℤ) : ℚ) := by
    push_cast
    ring
  rw [h, round_half_even_intCast]
  push_cast
  ring

theorem weekly_rate_eq_spec (outcome_intent : String)
    (recent_sessions : List WorkflowSession) (lookback_days : ℕ) (now : ℚ)
    (h : 0 < lookback_days) :
    weekly_rate outcome_intent recent_sessions lookback_days now =
      spec_weekly_rate outcome_intent recent_sessions lookback_days now := by
  unfold weekly_rate spec_weekly_rate
  dsimp only
  rw [if_pos]
  exact div_pos (by exact_mod_cast h) (by norm_num)

/-- C7 (amended): After every call to `measure_outcome` with a positive
lookback window, `after_minutes_per_week` equals the matched sessions' total
minutes scaled to a weekly rate (divided by `lookback_days / 7`) *rounded to
one decimal*; `actual_savings_minutes` equals `before - after` *rounded to
one decimal* (possibly negative); `weeks_tracked` is incremented by exactly
1; `cumulative_savings_minutes` equals `actual_savings × new weeks_tracked`
exactly; and the status is `"adopted"` if savings > 0, `"rejected"` if
savings ≤ 0 and `weeks_tracked ≥ 2`, otherwise `"measuring"`. -/
theorem c7_measure_outcome_update (outcome : ReplacementOutcome)
    (recent_sessions : List WorkflowSession) (lookback_days : ℕ) (now : ℚ)
    (hlb : 0 < lookback_days) :
    (measure_outcome outcome recent_sessions lookback_days now).after_minutes_per_week =
      round1 (spec_weekly_rate outcome.intent recent_sessions lookback_days now)
    ∧ (measure_outcome outcome recent_sessions lookback_days now).actual_savings_minutes =
      round1 (outcome.before_minutes_per_week -
        (measure_outcome outcome recent_sessions lookback_days now).after_minutes_per_week)
    ∧ (measure_outcome outcome recent_sessions lookback_days now).weeks_tracked =
      outcome.weeks_tracked + 1
    ∧ (measure_outcome outcome recent_sessions lookback_days now).cumulative_savings_minutes =
      (measure_outcome outcome recent_sessions lookback_days now).actual_savings_minutes *
        ((measure_outcome outcome recent_sessions lookback_days now).weeks_tracked : ℚ)
    ∧ (measure_outcome outcome recent_sessions lookback_days now).status =
      (if (measure_outcome outcome recent_sessions lookback_days now).actual_savings_minutes > 0
       then "adopted"
       else if 2 ≤ (measure_outcome outcome recent_sessions lookback_days now).weeks_tracked
       then "rejected"
       else "measuring") := by
  have h1 : (measure_outcome outcome recent_sessions lookback_days now).after_minutes_per_week =
      round1 (weekly_rate outcome.intent recent_sessions lookback_days now) := by
    simp only [measure_outcome]
  have h2 : (measure_outcome outcome recent_sessions lookback_days now).actual_savings_minutes =
      round1 (outcome.before_minutes_per_week -
        round1 (weekly_rate outcome.intent recent_sessions lookback_days now)) := by
    simp only [measure_outcome]
  have h3 : (measure_outcome outcome recent_sessions lookback_days now).weeks_tracked =
      outcome.weeks_tracked + 1 := by
    simp only [measure_outcome]
  have h4 : (measure_outcome outcome recent_sessions lookback_days now).cumulative_savings_minutes =
      round1 (round1 (outcome.before_minutes_per_week -
          round1 (weekly_rate outcome.intent recent_sessions lookback_days now)) *
        ((outcome.weeks_tracked + 1 : ℕ) : ℚ)) := by
    simp only [measure_outcome]
  have h5 : (measure_outcome outcome recent_sessions lookback_days now).status =
      (if round1 (outcome.before_minutes_per_week -
            round1 (weekly_rate outcome.intent recent_sessions lookback_days now)) > 0
       then "adopted"
       else if outcome.weeks_tracked + 1 ≥ 2 ∧
          round1 (outcome.before_minutes_per_week -
            round1 (weekly_rate outcome.intent recent_sessions lookback_days now)) ≤ 0
       then "rejected"
       else "measuring") := by
    simp only [measure_outcome]
  refine ⟨?_, ?_, h3, ?_, ?_⟩
  · rw [h1, weekly_rate_eq_spec _ _ _ _ hlb]
  · rw [h2, h1]
  · rw [h4, h2, h3, round1_round1_mul_nat]
  · rw [h5, h2, h3]
    by_cases hs : round1 (outcome.before_minutes_per_week -
        round1 (weekly_rate outcome.intent recent_sessions lookback_days now)) > 0
    · rw [if_pos hs, if_pos hs]
    · rw [if_neg hs, if_neg hs]
      have hle : round1 (outcome.before_minutes_per_week -
          round1 (weekly_rate outcome.intent recent_sessions lookback_days now)) ≤ 0 :=
        le_of_not_lt hs
      by_cases hw : 2 ≤ outcome.weeks_tracked + 1
      · rw [if_pos ⟨hw, hle⟩, if_pos hw]
      · rw [if_neg (fun hc => hw hc.1), if_neg hw]

theorem c7_measure_outcome_update_witness :
    (measure_outcome
        { id := "out_1", proposal_id := "p1", intent := "a", adopted := true,
          adopted_date := some 0, before_minutes_per_week := 100,
          after_minutes_per_week := 0, actual_savings_minutes := 0,
          cumulative_savings_minutes := 0, weeks_tracked := 0, notes := "",
          status := "measuring" }
        [mkSession "s" 1000000 1000600 10 "a" FrictionLevel.low 0]
        3 1000000).after_minutes_per_week =
      round1 (spec_weekly_rate
        (ReplacementOutcome.intent
          { id := "out_1", proposal_id := "p1", intent := "a", adopted := true,
            adopted_date := some 0, before_minutes_per_week := 100,
            after_minutes_per_week := 0, actual_savings_minutes := 0,
            cumulative_savings_minutes := 0, weeks_tracked := 0, notes := "",
            status := "measuring" })
        [mkSession "s" 1000000 1000600 10 "a" FrictionLevel.low 0] 3 1000000)
    ∧ (measure_outcome
        { id := "out_1", proposal_id := "p1", intent := "a", adopted := true,
          adopted_date := some 0, before_minutes_per_week := 100,
          after_minutes_per_week := 0, actual_savings_minutes := 0,
          cumulative_savings_minutes := 0, weeks_tracked := 0, notes := "",
          status := "measuring" }
        [mkSession "s" 1000000 1000600 10 "a" FrictionLevel.low 0]
        3 1000000).actual_savings_minutes =
      round1 (100 -
        (measure_outcome
          { id := "out_1", proposal_id := "p1", intent := "a", adopted := true,
            adopted_date := some 0, before_minutes_per_week := 100,
            after_minutes_per_week := 0, actual_savings_minutes := 0,
            cumulative_savings_minutes := 0, weeks_tracked := 0, notes := "",
            status := "measuring" }
          [mkSession "s" 1000000 1000600 10 "a" FrictionLevel.low 0]
          3 1000000).after_minutes_per_week)
    ∧ (measure_outcome
        { id := "out_1", proposal_id := "p1", intent := "a", adopted := true,
          adopted_date := some 0, before_minutes_per_week := 100,
          after_minutes_per_week := 0, actual_savings_minutes := 0,
          cumulative_savings_minutes := 0, weeks_tracked := 0, notes := "",
          status := "measuring" }
        [mkSession "s" 1000000 1000600 10 "a" FrictionLevel.low 0]
        3 1000000).weeks_tracked = 1 := by
  have h := c7_measure_outcome_update
    { id := "out_1", proposal_id := "p1", intent := "a", adopted := true,
      adopted_date := some 0, before_minutes_per_week := 100,
      after_minutes_per_week := 0, actual_savings_minutes := 0,
      cumulative_savings_minutes := 0, weeks_tracked := 0, notes := "",
      status := "measuring" }
    [mkSession "s" 1000000 1000600 10 "a" FrictionLevel.low 0]
    3 1000000 (by decide)
  exact ⟨h.1, h.2.1, h.2.2.1⟩

/-- C7 counterexample: the claim's exact equality
`after_minutes_per_week = matched minutes / (lookback_days / 7)` is false on
the code, which stores the weekly rate rounded to one decimal: with one
matched 10-minute session and a 3-day lookback the weekly rate is
`70/3 = 23.333...` but the stored value is `23.3`. -/
theorem c7_after_rounded_counterexample :
    (measure_outcome
        { id := "out_1", proposal_id := "p1", intent := "a", adopted := true,
          adopted_date := some 0, before_minutes_per_week := 100,
          after_minutes_per_week := 0, actual_savings_minutes := 0,
          cumulative_savings_minutes := 0, weeks_tracked := 0, notes := "",
          status := "measuring" }
        [mkSession "s" 1000000 1000600 10 "a" FrictionLevel.low 0]
        3 1000000).after_minutes_per_week = 233/10
    ∧ spec_weekly_rate "a"
        [mkSession "s" 1000000 1000600 10 "a" FrictionLevel.low 0]
        3 1000000 = 70/3
    ∧ (measure_outcome
        { id := "out_1", proposal_id := "p1", intent := "a", adopted := true,
          adopted_date := some 0, before_minutes_per_week := 100,
          after_minutes_per_week := 0, actual_savings_minutes := 0,
          cumulative_savings_minutes := 0, weeks_tracked := 0, notes := "",
          status := "measuring" }
        [mkSession "s" 1000000 1000600 10 "a" FrictionLevel.low 0]
        3 1000000).after_minutes_per_week ≠
      spec_weekly_rate "a"
        [mkSession "s" 1000000 1000600 10 "a" FrictionLevel.low 0]
        3 1000000 := by
  with_unfolding_all decide

end Workflowx
